import Mathlib

/-
Verification of the single-element accessor of the `accessor` crate
(`src/single.rs`), as a shallow embedding.

Modelling choices:
- Machine memory is value-granular: `Mem T := Nat → T` maps a virtual
  address to the `T`-typed bits stored there.  Volatile reads and writes
  of `ptr::read_volatile` / `ptr::write_volatile` become lookups and
  pointwise updates of this map.
- Rust's type-level data (`size_of::<T>()`, `align_of::<T>()`) is carried
  by an explicit `Layout` value, since Lean types do not carry a layout.
- A `Mapper` implementation is a record of two world-passing functions
  (`map`, `unmap`) acting on an explicit world `W`; the accessor stores
  the implementation record, mirroring the `mapper: M` field.
  Instantiating `W` with an event list gives a recording mapper, which is
  how the spec proposes to observe the map/unmap lifecycle.
- Methods taking `&self` / `&mut self` return the (possibly updated)
  receiver explicitly; since the Rust bodies never assign to `self.virt`
  or `self.mapper` outside of construction, the embedded bodies return
  the receiver unchanged, and theorems state exactly that.
- `panic!`-style aborts (the alignment `assert!` in `Generic::new`)
  are modelled with `Option`: `none` is the panic.
- The capability marker `A` is a term-level index of `Generic`, and each
  capability-gated method takes a proof of its trait bound
  (`Readable A = true` / `Writable A = true`) as an argument.  The proof
  argument is erased at runtime, mirroring "no runtime tag check".
-/

namespace Accessor

/-- Layout of a Rust type `T`: the pair `size_of::<T>()`, `align_of::<T>()`. -/
structure Layout where
  size : Nat
  align : Nat
deriving DecidableEq

/-- Modelled from the spec: `marker.rs` is not under `src/`.  The three
capability markers `ReadWrite`, `ReadOnly`, `WriteOnly` of §4.2 / §3. -/
inductive Marker where
  | ReadWrite
  | ReadOnly
  | WriteOnly
deriving DecidableEq

/-- Modelled from the spec: the read-capability predicate (the `Readable`
trait bound); per §4.2 it holds for `ReadWrite` and `ReadOnly` only. -/
def Readable : Marker → Bool
  | Marker.ReadWrite => true
  | Marker.ReadOnly => true
  | Marker.WriteOnly => false

/-- Modelled from the spec: the write-capability predicate (the `Writable`
trait bound); per §4.2 it holds for `ReadWrite` and `WriteOnly` only. -/
def Writable : Marker → Bool
  | Marker.ReadWrite => true
  | Marker.ReadOnly => false
  | Marker.WriteOnly => true

/-- Modelled from the spec: `error.rs` is not under `src/`.  The
`Error::NotAligned { alignment, address }` variant of §7, carrying the
required alignment and the offending address. -/
inductive Error where
  | NotAligned (alignment : Nat) (address : Nat)
deriving DecidableEq

/-- Modelled from the spec: `lib.rs` (`super::is_aligned::<T>`) is not under
`src/`.  An address satisfies `T`'s alignment requirement iff it is a
multiple of `align_of::<T>()`. -/
def is_aligned (L : Layout) (phys_base : Nat) : Bool :=
  phys_base % L.align == 0

/-- Modelled from the spec: `mapper.rs` is not under `src/`.  A `Mapper`
implementation, as the pair of world-passing operations of §4.1:
`mapFn w phys bytes` establishes a mapping and returns the virtual base
address together with the updated world; `unmapFn w addr bytes` releases
a mapping.  (`map`'s `NonZeroUsize` refinement is not needed by any claim
and is not modelled.) -/
structure MapperImpl (W : Type) where
  mapFn : W → Nat → Nat → Nat × W
  unmapFn : W → Nat → Nat → W

/-- Value-granular memory: the `T` bits stored at each virtual address. -/
abbrev Mem (T : Type) := Nat → T

/-- The accessor struct `Generic<T, M, A>` of `src/single.rs`: it stores the
mapped virtual address `virt` and the mapper it owns.  `T` is phantom data
in the source and appears here only in the method signatures; the marker
`A` is a term-level type index. -/
structure Generic (A : Marker) (W : Type) where
  virt : Nat
  mapper : MapperImpl W

/-- Body of `Generic::new` after the alignment assertion has passed:
`let bytes = mem::size_of::<T>(); let virt = mapper.map(phys_base, bytes).get();`
then build `Self { virt, mapper }`. -/
def Generic.new_unchecked {A : Marker} {W : Type} (L : Layout) (phys_base : Nat)
    (mapper : MapperImpl W) (w : W) : Generic A W × W :=
  let bytes := L.size
  let r := mapper.mapFn w phys_base bytes
  (⟨r.1, mapper⟩, r.2)

/-- `Generic::new`: `assert!(super::is_aligned::<T>(phys_base))`, then map.
The failed assertion (a panic) is `none`. -/
def Generic.new {A : Marker} {W : Type} (L : Layout) (phys_base : Nat)
    (mapper : MapperImpl W) (w : W) : Option (Generic A W × W) :=
  if is_aligned L phys_base then
    some (Generic.new_unchecked L phys_base mapper w)
  else
    none

/-- `Generic::try_new`: if `is_aligned::<T>(phys_base)` then `Ok(Self::new(..))`
(whose assertion cannot fire on this branch), else
`Err(Error::NotAligned { alignment: align_of::<T>(), address: phys_base })`.
The untouched world is returned alongside, so that the error path's effect
on the mapper is observable. -/
def Generic.try_new {A : Marker} {W : Type} (L : Layout) (phys_base : Nat)
    (mapper : MapperImpl W) (w : W) : Except Error (Generic A W) × W :=
  if is_aligned L phys_base then
    let r := Generic.new_unchecked (A := A) L phys_base mapper w
    (Except.ok r.1, r.2)
  else
    (Except.error (Error.NotAligned L.align phys_base), w)

/-- `Generic::addr`: returns the stored virtual address. -/
def Generic.addr {A : Marker} {W : Type} (a : Generic A W) : Nat :=
  a.virt

/-- `Generic::read_volatile` (gated by `A: Readable`): a volatile read of the
`T` at `self.virt`.  Returns the value and the receiver. -/
def Generic.read_volatile {A : Marker} {W T : Type} (a : Generic A W)
    (_h : Readable A = true) (mem : Mem T) : T × Generic A W :=
  (mem a.virt, a)

/-- `Generic::write_volatile` (gated by `A: Writable`): a volatile write of
`v` to `self.virt`.  Returns the updated memory and the receiver. -/
def Generic.write_volatile {A : Marker} {W T : Type} (a : Generic A W)
    (_h : Writable A = true) (v : T) (mem : Mem T) : Mem T × Generic A W :=
  (fun x => if x = a.virt then v else mem x, a)

/-- `Generic::update_volatile` (gated by `A: Readable + Writable`):
`let mut v = self.read_volatile(); f(&mut v); self.write_volatile(v);`.
The in-place mutation `f(&mut v)` is the pure function `f`. -/
def Generic.update_volatile {A : Marker} {W T : Type} (a : Generic A W)
    (hR : Readable A = true) (hW : Writable A = true) (f : T → T)
    (mem : Mem T) : Mem T × Generic A W :=
  let r := a.read_volatile hR mem
  let v := f r.1
  r.2.write_volatile hW v mem

/-- `impl PartialEq for Generic` (gated by `A: Readable`, `T: PartialEq`):
`self.read_volatile().eq(&other.read_volatile())`, with `T`'s `eq` passed
explicitly as `eqT`. -/
def Generic.eq {A : Marker} {W T : Type} (eqT : T → T → Bool)
    (a b : Generic A W) (hA : Readable A = true) (mem : Mem T) : Bool :=
  eqT (a.read_volatile hA mem).1 (b.read_volatile hA mem).1

/-- `impl PartialOrd for Generic` (`partial_cmp`, gated by `A: Readable`):
`self.read_volatile().partial_cmp(&other.read_volatile())`, with `T`'s
`partial_cmp` passed explicitly as `pcmpT`. -/
def Generic.pcmp {A : Marker} {W T : Type} (pcmpT : T → T → Option Ordering)
    (a b : Generic A W) (hA : Readable A = true) (mem : Mem T) : Option Ordering :=
  pcmpT (a.read_volatile hA mem).1 (b.read_volatile hA mem).1

/-- `impl Ord for Generic` (gated by `A: Readable`, `T: Ord`):
`self.read_volatile().cmp(&other.read_volatile())`, with `T`'s `cmp`
passed explicitly as `cmpT`. -/
def Generic.cmp {A : Marker} {W T : Type} (cmpT : T → T → Ordering)
    (a b : Generic A W) (hA : Readable A = true) (mem : Mem T) : Ordering :=
  cmpT (a.read_volatile hA mem).1 (b.read_volatile hA mem).1

/-- `impl Hash for Generic` (gated by `A: Readable`, `T: Hash`):
`self.read_volatile().hash(state)`, with `T`'s `hash` passed explicitly as
`hashT` acting on a hasher state of type `H`. -/
def Generic.hash {A : Marker} {W T H : Type} (hashT : T → H → H)
    (a : Generic A W) (hA : Readable A = true) (mem : Mem T) (st : H) : H :=
  hashT (a.read_volatile hA mem).1 st

/-- `impl Drop for Generic`:
`let bytes = mem::size_of::<T>(); self.mapper.unmap(self.virt, bytes);`. -/
def Generic.drop {A : Marker} {W : Type} (L : Layout) (a : Generic A W)
    (w : W) : W :=
  let bytes := L.size
  a.mapper.unmapFn w a.virt bytes

/-- An observable mapper call, for the recording mapper. -/
inductive MEvent where
  | map (phys_start : Nat) (bytes : Nat)
  | unmap (addr : Nat) (bytes : Nat)
deriving DecidableEq

/-- A recording mapper (the "test mapper that records call pairs" of §8):
the world is the list of calls made so far, and the physical-to-virtual
translation is an arbitrary function `f`. -/
def recMapper (f : Nat → Nat) : MapperImpl (List MEvent) :=
  ⟨fun w phys bytes => (f phys, w ++ [MEvent.map phys bytes]),
   fun w addr bytes => w ++ [MEvent.unmap addr bytes]⟩

/-- The full lifecycle of one single accessor under a recording mapper:
construct with `Generic::new` at `phys_base` starting from an empty call
log, then destroy it; the result is the log of every mapper call made. -/
def lifecycleTrace (L : Layout) (phys_base : Nat)
    (M : MapperImpl (List MEvent)) : List MEvent :=
  match Generic.new (A := Marker.ReadWrite) L phys_base M [] with
  | some (a, w) => Generic.drop L a w
  | none => []

/-- Number of `unmap` calls in a call log. -/
def unmapCount (w : List MEvent) : Nat :=
  (w.filter (fun e => match e with
    | MEvent.unmap _ _ => true
    | MEvent.map _ _ => false)).length

/-- The mapper of the unit tests in `src/single.rs` (`tests::M`): `map`
returns the physical address itself and `unmap` does nothing. -/
def testMapper : MapperImpl Unit :=
  ⟨fun _ phys _ => (phys, ()), fun w _ _ => w⟩

/-- C1 (counterexample): under a recording mapper whose translation is
`p + 4096`, constructing at physical address `8` for a `u32`-shaped layout
and then dropping yields the call log `[map 8 4, unmap 4104 4]`: the
address passed to `unmap` is the virtual address `4104`, not the physical
address `8` that was passed to `map`, refuting the claim as stated. -/
theorem drop_unmap_phys_cex :
    lifecycleTrace ⟨4, 4⟩ 8 (recMapper (fun p => p + 4096))
      = [MEvent.map 8 4, MEvent.unmap 4104 4] ∧ (4104 : Nat) ≠ 8 := by
  decide

/-- C1 (amended): for every translation `f` and every aligned physical base
address, the lifecycle of a single accessor makes exactly the two mapper
calls `map phys_base size` and `unmap (f phys_base) size`: `unmap` is
called exactly once, with the virtual address that the originating `map`
call returned and the same byte length `size_of::<T>()`. -/
theorem drop_unmaps_once_mapped_addr (f : Nat → Nat) (L : Layout)
    (phys_base : Nat) (h : is_aligned L phys_base = true) :
    lifecycleTrace L phys_base (recMapper f)
      = [MEvent.map phys_base L.size, MEvent.unmap (f phys_base) L.size]
    ∧ unmapCount (lifecycleTrace L phys_base (recMapper f)) = 1 := by
  have ht : lifecycleTrace L phys_base (recMapper f)
      = [MEvent.map phys_base L.size, MEvent.unmap (f phys_base) L.size] := by
    simp [lifecycleTrace, Generic.new, h, Generic.new_unchecked, Generic.drop,
      recMapper]
  exact ⟨ht, by rw [ht]; rfl⟩

/-- C1 (witness): the amended lifecycle theorem at layout `⟨4, 4⟩`, physical
address `4` and translation `p + 100`. -/
theorem drop_unmaps_once_mapped_addr_witness :
    is_aligned ⟨4, 4⟩ 4 = true ∧
    (lifecycleTrace ⟨4, 4⟩ 4 (recMapper (fun p => p + 100))
        = [MEvent.map 4 4, MEvent.unmap 104 4]
      ∧ unmapCount (lifecycleTrace ⟨4, 4⟩ 4 (recMapper (fun p => p + 100))) = 1) :=
  ⟨by decide, drop_unmaps_once_mapped_addr (fun p => p + 100) ⟨4, 4⟩ 4 (by decide)⟩

/-- C2: for every misaligned physical base address, `try_new` returns
`Err(Error::NotAligned)` carrying exactly `align_of::<T>()` and exactly the
offending address; for every aligned address it returns `Ok` with a
constructed accessor. -/
theorem try_new_alignment (W : Type) (A : Marker) (L : Layout)
    (phys_base : Nat) (mapper : MapperImpl W) (w : W) :
    (is_aligned L phys_base = false →
      (Generic.try_new (A := A) L phys_base mapper w).1
        = Except.error (Error.NotAligned L.align phys_base))
    ∧ (is_aligned L phys_base = true →
      ∃ a : Generic A W,
        (Generic.try_new (A := A) L phys_base mapper w).1 = Except.ok a) := by
  constructor
  · intro h
    simp [Generic.try_new, h]
  · intro h
    exact ⟨(Generic.new_unchecked (A := A) L phys_base mapper w).1,
      by simp [Generic.try_new, h]⟩

/-- C2 (witness): the alignment dichotomy of `try_new` at layout `⟨4, 4⟩`,
with the misaligned address `5` and the aligned address `8`. -/
theorem try_new_alignment_witness :
    (is_aligned ⟨4, 4⟩ 5 = false
      ∧ (Generic.try_new (A := Marker.ReadWrite) ⟨4, 4⟩ 5 testMapper ()).1
          = Except.error (Error.NotAligned 4 5))
    ∧ (is_aligned ⟨4, 4⟩ 8 = true
      ∧ ∃ a : Generic Marker.ReadWrite Unit,
          (Generic.try_new (A := Marker.ReadWrite) ⟨4, 4⟩ 8 testMapper ()).1
            = Except.ok a) :=
  ⟨⟨by decide, (try_new_alignment Unit Marker.ReadWrite ⟨4, 4⟩ 5 testMapper ()).1
      (by decide)⟩,
   ⟨by decide, (try_new_alignment Unit Marker.ReadWrite ⟨4, 4⟩ 8 testMapper ()).2
      (by decide)⟩⟩

/-- C5: `Generic::new` panics (returns `none`) if and only if the physical
base address is not aligned to `T`'s alignment requirement; on every
aligned address it returns an accessor. -/
theorem new_panics_iff_misaligned (W : Type) (A : Marker) (L : Layout)
    (phys_base : Nat) (mapper : MapperImpl W) (w : W) :
    Generic.new (A := A) L phys_base mapper w = none
      ↔ is_aligned L phys_base = false := by
  unfold Generic.new
  cases h : is_aligned L phys_base <;> simp [h]

/-- C9: on every misaligned physical base address, `try_new` returns the
alignment error with the mapper world unchanged: no `map` call is made and
no mapping is established on the error path. -/
theorem try_new_err_no_map (W : Type) (A : Marker) (L : Layout)
    (phys_base : Nat) (mapper : MapperImpl W) (w : W)
    (h : is_aligned L phys_base = false) :
    Generic.try_new (A := A) L phys_base mapper w
      = (Except.error (Error.NotAligned L.align phys_base), w) := by
  simp [Generic.try_new, h]

/-- C9 (witness): `try_new` at the misaligned address `3` under the
recording mapper leaves the call log empty. -/
theorem try_new_err_no_map_witness :
    is_aligned ⟨4, 4⟩ 3 = false ∧
    Generic.try_new (A := Marker.ReadOnly) ⟨4, 4⟩ 3
        (recMapper (fun p => p + 4096)) []
      = (Except.error (Error.NotAligned 4 3), ([] : List MEvent)) :=
  ⟨by decide, try_new_err_no_map (List MEvent) Marker.ReadOnly ⟨4, 4⟩ 3
    (recMapper (fun p => p + 4096)) [] (by decide)⟩

/-- C3: `update_volatile f` is equivalent to reading, applying `f` to the
copy, and writing the result back, i.e. `update f = write (f (read))`;
in particular, after `update (|x| *x = x + 1)` on a `u32` location holding
`42`, a subsequent read returns `43`. -/
theorem update_eq_write_of_read :
    (∀ (W T : Type) (A : Marker) (a : Generic A W) (hR : Readable A = true)
        (hW : Writable A = true) (f : T → T) (mem : Mem T),
      a.update_volatile hR hW f mem
        = a.write_volatile hW (f (a.read_volatile hR mem).1) mem)
    ∧ (∀ (W : Type) (A : Marker) (a : Generic A W) (hR : Readable A = true)
        (hW : Writable A = true) (mem : Mem Nat),
      mem a.virt = 42 →
      ((a.update_volatile hR hW (fun x => (x + 1) % 4294967296) mem).2.read_volatile hR
        (a.update_volatile hR hW (fun x => (x + 1) % 4294967296) mem).1).1 = 43) := by
  constructor
  · intro W T A a hR hW f mem
    rfl
  · intro W A a hR hW mem h
    simp [Generic.update_volatile, Generic.read_volatile, Generic.write_volatile, h]

/-- C3 (witness): the equivalence at a concrete doubling function, and the
`42 + 1 = 43` instance, both at address `16` under the test mapper. -/
theorem update_eq_write_of_read_witness :
    (Generic.update_volatile (A := Marker.ReadWrite) (W := Unit) ⟨16, testMapper⟩
        rfl rfl (fun x : Nat => x * 2) (fun _ => 21)
      = Generic.write_volatile (A := Marker.ReadWrite) (W := Unit) ⟨16, testMapper⟩
          rfl
          ((fun x : Nat => x * 2)
            ((Generic.read_volatile (A := Marker.ReadWrite) (W := Unit)
              ⟨16, testMapper⟩ rfl (fun _ => 21)).1))
          (fun _ => 21))
    ∧ ((Generic.update_volatile (A := Marker.ReadWrite) (W := Unit) ⟨16, testMapper⟩
          rfl rfl (fun x => (x + 1) % 4294967296)
          (fun _ => (42 : Nat))).2.read_volatile rfl
        (Generic.update_volatile (A := Marker.ReadWrite) (W := Unit) ⟨16, testMapper⟩
          rfl rfl (fun x => (x + 1) % 4294967296) (fun _ => (42 : Nat))).1).1 = 43 :=
  ⟨update_eq_write_of_read.1 Unit Nat Marker.ReadWrite ⟨16, testMapper⟩ rfl rfl
      (fun x => x * 2) (fun _ => 21),
   update_eq_write_of_read.2 Unit Marker.ReadWrite ⟨16, testMapper⟩ rfl rfl
      (fun _ => 42) rfl⟩

/-- C4: on a read-write accessor, `write_volatile v` followed immediately by
`read_volatile` returns exactly `v`, for every type `T` and value `v`. -/
theorem write_then_read (W T : Type) (A : Marker) (a : Generic A W)
    (hW : Writable A = true) (hR : Readable A = true) (v : T) (mem : Mem T) :
    ((a.write_volatile hW v mem).2.read_volatile hR
      (a.write_volatile hW v mem).1).1 = v := by
  simp [Generic.write_volatile, Generic.read_volatile]

/-- C4 (witness): writing `7` at address `8` then reading returns `7`. -/
theorem write_then_read_witness :
    ((Generic.write_volatile (A := Marker.ReadWrite) (W := Unit) ⟨8, testMapper⟩
        rfl (7 : Nat) (fun _ => 0)).2.read_volatile rfl
      (Generic.write_volatile (A := Marker.ReadWrite) (W := Unit) ⟨8, testMapper⟩
        rfl (7 : Nat) (fun _ => 0)).1).1 = 7 :=
  write_then_read Unit Nat Marker.ReadWrite ⟨8, testMapper⟩ rfl rfl 7 (fun _ => 0)

/-- C6: equality, ordering (total and partial) and hashing of accessors are
defined purely on the current read value: whenever two read-capable
accessors read equal values (their addresses being unconstrained and
possibly different), and `T`'s own comparators are reflexive, the two
accessors compare equal, order as `eq`, and hash identically. -/
theorem compare_by_value (W T H : Type) (A : Marker) (a b : Generic A W)
    (hA : Readable A = true) (mem : Mem T)
    (eqT : T → T → Bool) (cmpT : T → T → Ordering)
    (pcmpT : T → T → Option Ordering) (hashT : T → H → H) (st : H)
    (hv : (a.read_volatile hA mem).1 = (b.read_volatile hA mem).1)
    (heq : ∀ x, eqT x x = true) (hcmp : ∀ x, cmpT x x = Ordering.eq)
    (hpcmp : ∀ x, pcmpT x x = some Ordering.eq) :
    Generic.eq eqT a b hA mem = true
    ∧ Generic.cmp cmpT a b hA mem = Ordering.eq
    ∧ Generic.pcmp pcmpT a b hA mem = some Ordering.eq
    ∧ Generic.hash hashT a hA mem st = Generic.hash hashT b hA mem st := by
  unfold Generic.eq Generic.cmp Generic.pcmp Generic.hash
  rw [hv]
  exact ⟨heq _, hcmp _, hpcmp _, rfl⟩

/-- C6 (witness): two read-only accessors at the distinct addresses `0` and
`100` over a memory holding `42` everywhere compare equal, order as `eq`,
and hash identically. -/
theorem compare_by_value_witness :
    (0 : Nat) ≠ 100
    ∧ (Generic.eq (A := Marker.ReadOnly) (W := Unit) (fun x y : Nat => x == y)
          ⟨0, testMapper⟩ ⟨100, testMapper⟩ rfl (fun _ => 42) = true
      ∧ Generic.cmp (A := Marker.ReadOnly) (W := Unit)
          (fun x y : Nat =>
            if x = y then Ordering.eq else if x < y then Ordering.lt else Ordering.gt)
          ⟨0, testMapper⟩ ⟨100, testMapper⟩ rfl (fun _ => 42) = Ordering.eq
      ∧ Generic.pcmp (A := Marker.ReadOnly) (W := Unit)
          (fun x y : Nat =>
            some (if x = y then Ordering.eq
              else if x < y then Ordering.lt else Ordering.gt))
          ⟨0, testMapper⟩ ⟨100, testMapper⟩ rfl (fun _ => 42) = some Ordering.eq
      ∧ Generic.hash (A := Marker.ReadOnly) (W := Unit) (fun x st : Nat => st + x)
          ⟨0, testMapper⟩ rfl (fun _ => 42) 0
        = Generic.hash (A := Marker.ReadOnly) (W := Unit) (fun x st : Nat => st + x)
          ⟨100, testMapper⟩ rfl (fun _ => 42) 0) :=
  ⟨by decide,
   compare_by_value Unit Nat Nat Marker.ReadOnly ⟨0, testMapper⟩ ⟨100, testMapper⟩
     rfl (fun _ => 42) _ _ _ _ 0 rfl (fun x => by simp) (fun x => by simp)
     (fun x => by simp)⟩

/-- C7: the capability predicates gate the operations: `ReadWrite` satisfies
both `Readable` and `Writable`, `ReadOnly` satisfies exactly `Readable`,
`WriteOnly` satisfies exactly `Writable`; and the behavior of
`read_volatile` / `write_volatile` is independent of the marker (and of the
capability evidence) — there is no runtime tag check. -/
theorem capability_gating :
    (Readable Marker.ReadWrite = true ∧ Writable Marker.ReadWrite = true)
    ∧ (Readable Marker.ReadOnly = true ∧ Writable Marker.ReadOnly = false)
    ∧ (Readable Marker.WriteOnly = false ∧ Writable Marker.WriteOnly = true)
    ∧ (∀ (W T : Type) (A B : Marker) (hA : Readable A = true)
        (hB : Readable B = true) (virt : Nat) (m1 m2 : MapperImpl W)
        (mem : Mem T),
      (Generic.read_volatile (A := A) ⟨virt, m1⟩ hA mem).1
        = (Generic.read_volatile (A := B) ⟨virt, m2⟩ hB mem).1)
    ∧ (∀ (W T : Type) (A B : Marker) (hA : Writable A = true)
        (hB : Writable B = true) (virt : Nat) (m1 m2 : MapperImpl W)
        (v : T) (mem : Mem T) (x : Nat),
      (Generic.write_volatile (A := A) ⟨virt, m1⟩ hA v mem).1 x
        = (Generic.write_volatile (A := B) ⟨virt, m2⟩ hB v mem).1 x) := by
  refine ⟨by decide, by decide, by decide, ?_, ?_⟩
  · intro W T A B hA hB virt m1 m2 mem
    rfl
  · intro W T A B hA hB virt m1 m2 v mem x
    rfl

/-- C7 (witness): a `ReadWrite` and a `ReadOnly` accessor at the same
address read the same value. -/
theorem capability_gating_witness :
    (Generic.read_volatile (A := Marker.ReadWrite) (W := Unit) ⟨7, testMapper⟩
        rfl (fun _ => (5 : Nat))).1
      = (Generic.read_volatile (A := Marker.ReadOnly) (W := Unit) ⟨7, testMapper⟩
        rfl (fun _ => (5 : Nat))).1 :=
  capability_gating.2.2.2.1 Unit Nat Marker.ReadWrite Marker.ReadOnly rfl rfl 7
    testMapper testMapper (fun _ => 5)

/-- C8: constructing a single accessor at an aligned physical address
performs no write to memory (the memory map is not an input of `new`), and
an immediate `read_volatile` returns exactly the bits the mapped location
held before construction. -/
theorem new_then_read_roundtrip (W T : Type) (A : Marker) (L : Layout)
    (phys_base : Nat) (mapper : MapperImpl W) (w : W) (mem : Mem T)
    (hal : is_aligned L phys_base = true) (hR : Readable A = true) :
    ∃ (a : Generic A W) (w2 : W),
      Generic.new (A := A) L phys_base mapper w = some (a, w2)
      ∧ (a.read_volatile hR mem).1 = mem (mapper.mapFn w phys_base L.size).1 := by
  refine ⟨⟨(mapper.mapFn w phys_base L.size).1, mapper⟩,
    (mapper.mapFn w phys_base L.size).2, ?_, rfl⟩
  simp [Generic.new, hal, Generic.new_unchecked]

/-- C8 (witness): constructing at the aligned address `8` under the test
mapper and reading the memory `fun n => n * 3` returns `24`, the value the
location held before construction. -/
theorem new_then_read_roundtrip_witness :
    is_aligned ⟨4, 4⟩ 8 = true
    ∧ ∃ (a : Generic Marker.ReadOnly Unit) (w2 : Unit),
        Generic.new (A := Marker.ReadOnly) ⟨4, 4⟩ 8 testMapper () = some (a, w2)
        ∧ (a.read_volatile rfl (fun n => n * 3)).1 = 24 :=
  ⟨by decide,
   new_then_read_roundtrip Unit Nat Marker.ReadOnly ⟨4, 4⟩ 8 testMapper ()
     (fun n => n * 3) (by decide) rfl⟩

/-- C10: `read_volatile`, `write_volatile` and `update_volatile` leave the
accessor itself unchanged: the receiver they return is the original
accessor, so the stored virtual address (as returned by `addr`) and the
stored mapper are identical before and after every operation. -/
theorem ops_fix_accessor (W T : Type) (A : Marker) (a : Generic A W)
    (v : T) (f : T → T) (mem : Mem T) :
    (∀ hR : Readable A = true,
      (a.read_volatile hR mem).2 = a ∧ (a.read_volatile hR mem).2.addr = a.addr)
    ∧ (∀ hW : Writable A = true,
      (a.write_volatile hW v mem).2 = a
      ∧ (a.write_volatile hW v mem).2.addr = a.addr)
    ∧ (∀ (hR : Readable A = true) (hW : Writable A = true),
      (a.update_volatile hR hW f mem).2 = a
      ∧ (a.update_volatile hR hW f mem).2.addr = a.addr
      ∧ (a.update_volatile hR hW f mem).2.mapper = a.mapper) :=
  ⟨fun _ => ⟨rfl, rfl⟩, fun _ => ⟨rfl, rfl⟩, fun _ _ => ⟨rfl, rfl, rfl⟩⟩

/-- C10 (witness): an update at address `9` returns the accessor with the
same address and the same mapper. -/
theorem ops_fix_accessor_witness :
    (Generic.update_volatile (A := Marker.ReadWrite) (W := Unit) ⟨9, testMapper⟩
        rfl rfl (fun x : Nat => x + 1) (fun _ => 0)).2 = ⟨9, testMapper⟩
    ∧ (Generic.update_volatile (A := Marker.ReadWrite) (W := Unit) ⟨9, testMapper⟩
        rfl rfl (fun x : Nat => x + 1) (fun _ => 0)).2.addr
      = Generic.addr (A := Marker.ReadWrite) (W := Unit) ⟨9, testMapper⟩
    ∧ (Generic.update_volatile (A := Marker.ReadWrite) (W := Unit) ⟨9, testMapper⟩
        rfl rfl (fun x : Nat => x + 1) (fun _ => 0)).2.mapper = testMapper :=
  (ops_fix_accessor Unit Nat Marker.ReadWrite ⟨9, testMapper⟩ 0 (fun x => x + 1)
    (fun _ => 0)).2.2 rfl rfl

end Accessor
